import Mathlib

/-!
Verification of the budget-shop backend HTTP surface (src/backend/main.py).

The source registers three GET routes on a FastAPI application and installs
the CORS middleware with a two-origin allow-list, credentials enabled, and
wildcard methods and headers.  The three response payloads and the CORS
configuration below are transcribed from the source; the request dispatch
performed by the web framework (route matching, method matching, and the
CORS middleware protocol) is a dependency whose code is not part of this
repository, so it is modelled from the specification.  Header names are
written in their lowercase wire form.
-/

namespace BudgetShop

/-- JSON objects whose values are strings, as ordered key-value lists. -/
abbrev Json := List (String × String)

/-- An inbound HTTP request: method, path, and headers (lowercase names). -/
structure Request where
  method : String
  path : String
  headers : List (String × String)
deriving Repr, DecidableEq

/-- An HTTP response: status code, JSON body (empty list for no body),
and headers. -/
structure Response where
  status : Nat
  body : Json
  headers : List (String × String)
deriving Repr, DecidableEq

/-- Lookup of the first header with the given (lowercase) name. -/
def getHeader (hs : List (String × String)) (name : String) : Option String :=
  match hs.find? (fun p => p.1 == name) with
  | some p => some p.2
  | none => none

/-- The CORS allow-list, transcribed from the source:
allow_origins of the CORSMiddleware configuration in src/backend/main.py. -/
def allow_origins : List String :=
  ["http://localhost:3000", "http://localhost:5173"]

/-- The allow_credentials flag of the CORS configuration in the source. -/
def allow_credentials : Bool := true

/-- Payload of the root handler in src/backend/main.py. -/
def root : Json := [("message", "Welcome to Budget Shop API")]

/-- Payload of the health_check handler in src/backend/main.py. -/
def health_check : Json :=
  [("status", "healthy"), ("service", "budget-shop-api")]

/-- Payload of the get_version handler in src/backend/main.py. -/
def get_version : Json :=
  [("version", "0.1.0"), ("framework", "FastAPI")]

/-- The server state: the three static response payloads.  The handlers in
the source return these mappings and nothing in the program writes to them. -/
structure ServerState where
  rootPayload : Json
  healthPayload : Json
  versionPayload : Json
deriving Repr, DecidableEq

/-- The state at process start: the three payload literals of the source. -/
def initState : ServerState :=
  { rootPayload := root
    healthPayload := health_check
    versionPayload := get_version }

/-- Modelled from the spec: the route dispatch of the web framework (FastAPI),
whose code is not in this repository.  The three registered paths answer GET
with status 200 and their static payload; a registered path with another
method answers 405; an unregistered path answers 404 (framework defaults per
the spec, section 7). -/
def routeAppWith (s : ServerState) (req : Request) : Response :=
  if req.path = "/" then
    if req.method = "GET" then
      { status := 200, body := s.rootPayload
        headers := [("content-type", "application/json")] }
    else
      { status := 405, body := [("detail", "Method Not Allowed")]
        headers := [("content-type", "application/json")] }
  else if req.path = "/health" then
    if req.method = "GET" then
      { status := 200, body := s.healthPayload
        headers := [("content-type", "application/json")] }
    else
      { status := 405, body := [("detail", "Method Not Allowed")]
        headers := [("content-type", "application/json")] }
  else if req.path = "/api/version" then
    if req.method = "GET" then
      { status := 200, body := s.versionPayload
        headers := [("content-type", "application/json")] }
    else
      { status := 405, body := [("detail", "Method Not Allowed")]
        headers := [("content-type", "application/json")] }
  else
    { status := 404, body := [("detail", "Not Found")]
      headers := [("content-type", "application/json")] }

/-- The value sent for access-control-allow-methods on preflight: the
configured wildcard expanded to all methods. -/
def allMethods : String := "DELETE, GET, HEAD, OPTIONS, PATCH, POST, PUT"

/-- Modelled from the spec: a CORS preflight request is an OPTIONS request
carrying an origin header and an access-control-request-method header. -/
def isPreflight (req : Request) : Bool :=
  req.method == "OPTIONS"
    && (getHeader req.headers "origin").isSome
    && (getHeader req.headers "access-control-request-method").isSome

/-- Modelled from the spec: the CORS middleware answer to a preflight
request.  For an allow-listed origin: status 200, empty body, the origin
echoed, credentials allowed, all methods allowed, and the requested headers
echoed back.  For any other origin: a 400 with no permissive headers. -/
def preflightResponse (req : Request) (origin : String) : Response :=
  if origin ∈ allow_origins then
    { status := 200
      body := []
      headers :=
        [("access-control-allow-origin", origin),
         ("access-control-allow-credentials", "true"),
         ("access-control-allow-methods", allMethods)] ++
        (match getHeader req.headers "access-control-request-headers" with
         | some rh => [("access-control-allow-headers", rh)]
         | none => []) }
  else
    { status := 400, body := [], headers := [] }

/-- Modelled from the spec: the headers the CORS middleware adds to a
non-preflight response — the echoed origin and the credentials flag when the
origin is allow-listed, nothing otherwise (default-deny). -/
def simpleCorsHeaders (origin : String) : List (String × String) :=
  if origin ∈ allow_origins then
    [("access-control-allow-origin", origin),
     ("access-control-allow-credentials", "true")]
  else []

/-- Modelled from the spec: full request handling.  The CORS middleware runs
before routing: a preflight request is answered by the middleware itself;
any other request is routed, and when it carries an origin header the CORS
headers for that origin are appended to the response. -/
def handleWith (s : ServerState) (req : Request) : Response :=
  match getHeader req.headers "origin" with
  | none => routeAppWith s req
  | some origin =>
    if isPreflight req then
      preflightResponse req origin
    else
      let base := routeAppWith s req
      { base with headers := base.headers ++ simpleCorsHeaders origin }

/-- Handling a request against the process-start state. -/
def handle (req : Request) : Response := handleWith initState req

/-- One request-response step of the server: the state is read, never
written (the source handlers only return their static payloads). -/
def step (s : ServerState) (req : Request) : ServerState × Response :=
  (s, handleWith s req)

/-- Serving a sequence of requests, threading the state through the steps. -/
def serve : ServerState → List Request → ServerState × List Response
  | s, [] => (s, [])
  | s, r :: rs =>
    let p := step s r
    let q := serve p.1 rs
    (q.1, p.2 :: q.2)

/-! ### Helper lemmas -/

/-- The framework route dispatch always answers with the JSON content type
and no other header. -/
theorem routeAppWith_headers (s : ServerState) (req : Request) :
    (routeAppWith s req).headers = [("content-type", "application/json")] := by
  unfold routeAppWith
  split_ifs <;> rfl

/-- A request whose method is not OPTIONS is never a preflight request. -/
theorem isPreflight_eq_false_of_method (req : Request)
    (hm : req.method ≠ "OPTIONS") : isPreflight req = false := by
  unfold isPreflight
  simp [hm]

/-- For a non-preflight request, handling preserves the status and the body
of the routed response. -/
theorem handle_not_preflight (req : Request) (h : isPreflight req = false) :
    (handle req).status = (routeAppWith initState req).status ∧
    (handle req).body = (routeAppWith initState req).body := by
  unfold handle handleWith
  cases ho : getHeader req.headers "origin" with
  | none => exact ⟨rfl, rfl⟩
  | some origin => simp [h]

/-- The step of the server never changes the state. -/
theorem step_fst (s : ServerState) (req : Request) : (step s req).1 = s := rfl

/-- Serving a request list from a state returns that state and the map of
the per-request handler over the list. -/
theorem serve_eq_map (s : ServerState) (reqs : List Request) :
    serve s reqs = (s, reqs.map (handleWith s)) := by
  induction reqs with
  | nil => rfl
  | cons r rs ih => simp [serve, step, ih]

/-! ### Claim theorems -/

/-- C1: a GET request to any of the three defined routes is answered with
HTTP status 200 and a JSON body exactly equal to the payload of the route:
the message payload for the root path, the status and service payload for
the health path, and the version and framework payload for the version
path — no extra and no missing fields. -/
theorem c1_defined_routes_exact (req : Request) (hm : req.method = "GET") :
    (req.path = "/" →
      (handle req).status = 200 ∧
      (handle req).body = [("message", "Welcome to Budget Shop API")]) ∧
    (req.path = "/health" →
      (handle req).status = 200 ∧
      (handle req).body = [("status", "healthy"), ("service", "budget-shop-api")]) ∧
    (req.path = "/api/version" →
      (handle req).status = 200 ∧
      (handle req).body = [("version", "0.1.0"), ("framework", "FastAPI")]) := by
  have hnp : isPreflight req = false :=
    isPreflight_eq_false_of_method req (by simp [hm])
  obtain ⟨hs, hb⟩ := handle_not_preflight req hnp
  refine ⟨fun hp => ?_, fun hp => ?_, fun hp => ?_⟩ <;>
    rw [hs, hb] <;>
    simp [routeAppWith, hp, hm, initState, root, health_check, get_version]

/-- Witness for C1 at the three concrete GET requests. -/
theorem c1_defined_routes_exact_witness :
    ((handle ⟨"GET", "/", []⟩).status = 200 ∧
      (handle ⟨"GET", "/", []⟩).body = [("message", "Welcome to Budget Shop API")]) ∧
    ((handle ⟨"GET", "/health", []⟩).status = 200 ∧
      (handle ⟨"GET", "/health", []⟩).body =
        [("status", "healthy"), ("service", "budget-shop-api")]) ∧
    ((handle ⟨"GET", "/api/version", []⟩).status = 200 ∧
      (handle ⟨"GET", "/api/version", []⟩).body =
        [("version", "0.1.0"), ("framework", "FastAPI")]) :=
  ⟨(c1_defined_routes_exact ⟨"GET", "/", []⟩ rfl).1 rfl,
   (c1_defined_routes_exact ⟨"GET", "/health", []⟩ rfl).2.1 rfl,
   (c1_defined_routes_exact ⟨"GET", "/api/version", []⟩ rfl).2.2 rfl⟩

/-- C2: every request carrying an origin header whose value is one of the
two allow-listed origins is answered with an access-control-allow-origin
header echoing that origin and an access-control-allow-credentials header
set to true. -/
theorem c2_allowed_origin_echoed (req : Request) (origin : String)
    (ho : getHeader req.headers "origin" = some origin)
    (hallow : origin ∈ allow_origins) :
    ("access-control-allow-origin", origin) ∈ (handle req).headers ∧
    ("access-control-allow-credentials", "true") ∈ (handle req).headers := by
  unfold handle handleWith
  rw [ho]
  by_cases hp : isPreflight req = true
  · simp only [hp, if_true]
    unfold preflightResponse
    rw [if_pos hallow]
    constructor <;> (apply List.mem_append_left; simp)
  · simp only [hp, if_false]
    constructor <;>
      (apply List.mem_append_right; simp [simpleCorsHeaders, hallow])

/-- Witness for C2 at a concrete GET request from the first allowed origin. -/
theorem c2_allowed_origin_echoed_witness :
    ("access-control-allow-origin", "http://localhost:3000") ∈
      (handle ⟨"GET", "/", [("origin", "http://localhost:3000")]⟩).headers ∧
    ("access-control-allow-credentials", "true") ∈
      (handle ⟨"GET", "/", [("origin", "http://localhost:3000")]⟩).headers :=
  c2_allowed_origin_echoed ⟨"GET", "/", [("origin", "http://localhost:3000")]⟩
    "http://localhost:3000" rfl (by decide)

/-- C3: a request whose origin header is not in the allow-list is answered
with no access-control-allow-origin header matching that origin: the policy
is default-deny decided by exact string membership in the allow-list. -/
theorem c3_default_deny (req : Request) (origin : String)
    (ho : getHeader req.headers "origin" = some origin)
    (hdeny : origin ∉ allow_origins) :
    ("access-control-allow-origin", origin) ∉ (handle req).headers := by
  unfold handle handleWith
  rw [ho]
  by_cases hp : isPreflight req = true
  · simp only [hp, if_true]
    unfold preflightResponse
    rw [if_neg hdeny]
    simp
  · simp only [hp, if_false]
    intro hmem
    rcases List.mem_append.mp hmem with hl | hr
    · rw [routeAppWith_headers] at hl
      simp at hl
    · simp [simpleCorsHeaders, hdeny] at hr

/-- Witness for C3 at a concrete request from a disallowed origin. -/
theorem c3_default_deny_witness :
    ("access-control-allow-origin", "http://evil.example.com") ∉
      (handle ⟨"GET", "/", [("origin", "http://evil.example.com")]⟩).headers :=
  c3_default_deny ⟨"GET", "/", [("origin", "http://evil.example.com")]⟩
    "http://evil.example.com" rfl (by decide)

/-- C4: a preflight request — OPTIONS with an allow-listed origin header and
an access-control-request-method header — to any path is answered with
status 200, an empty body, the origin echoed, credentials allowed, an
allow-methods header covering all methods, and, when request headers were
named, an allow-headers header echoing them. -/
theorem c4_preflight (req : Request) (origin : String)
    (hm : req.method = "OPTIONS")
    (ho : getHeader req.headers "origin" = some origin)
    (hallow : origin ∈ allow_origins)
    (hrm : (getHeader req.headers "access-control-request-method").isSome = true) :
    (handle req).status = 200 ∧
    (handle req).body = [] ∧
    ("access-control-allow-origin", origin) ∈ (handle req).headers ∧
    ("access-control-allow-credentials", "true") ∈ (handle req).headers ∧
    ("access-control-allow-methods", allMethods) ∈ (handle req).headers ∧
    (∀ rh, getHeader req.headers "access-control-request-headers" = some rh →
      ("access-control-allow-headers", rh) ∈ (handle req).headers) := by
  have hp : isPreflight req = true := by
    unfold isPreflight
    simp [hm, ho, hrm]
  unfold handle handleWith
  rw [ho]
  simp only [hp, if_true]
  unfold preflightResponse
  rw [if_pos hallow]
  refine ⟨rfl, rfl, ?_, ?_, ?_, ?_⟩
  · apply List.mem_append_left; simp
  · apply List.mem_append_left; simp
  · apply List.mem_append_left; simp
  · intro rh hrh
    apply List.mem_append_right
    rw [hrh]
    simp

/-- Witness for C4 at the concrete preflight request of the spec scenario. -/
theorem c4_preflight_witness :
    (handle ⟨"OPTIONS", "/api/version",
      [("origin", "http://localhost:3000"),
       ("access-control-request-method", "GET")]⟩).status = 200 ∧
    (handle ⟨"OPTIONS", "/api/version",
      [("origin", "http://localhost:3000"),
       ("access-control-request-method", "GET")]⟩).body = [] ∧
    ("access-control-allow-origin", "http://localhost:3000") ∈
      (handle ⟨"OPTIONS", "/api/version",
        [("origin", "http://localhost:3000"),
         ("access-control-request-method", "GET")]⟩).headers := by
  have h := c4_preflight
    ⟨"OPTIONS", "/api/version",
      [("origin", "http://localhost:3000"),
       ("access-control-request-method", "GET")]⟩
    "http://localhost:3000" rfl rfl (by decide) rfl
  exact ⟨h.1, h.2.1, h.2.2.1⟩

/-- C5: a GET request to any path other than the three defined routes is
answered with HTTP status 404. -/
theorem c5_undefined_path_404 (req : Request) (hm : req.method = "GET")
    (h1 : req.path ≠ "/") (h2 : req.path ≠ "/health")
    (h3 : req.path ≠ "/api/version") :
    (handle req).status = 404 := by
  have hnp : isPreflight req = false :=
    isPreflight_eq_false_of_method req (by simp [hm])
  rw [(handle_not_preflight req hnp).1]
  unfold routeAppWith
  simp [h1, h2, h3]

/-- Witness for C5 at a concrete GET request to an unregistered path. -/
theorem c5_undefined_path_404_witness :
    (handle ⟨"GET", "/nonexistent", []⟩).status = 404 :=
  c5_undefined_path_404 ⟨"GET", "/nonexistent", []⟩ rfl
    (by decide) (by decide) (by decide)

/-- C6: the handlers of the three defined routes cannot fail: a GET request
to any of them is always answered with status 200, never with an error
status (400 or above); in particular the health route always succeeds. -/
theorem c6_handlers_never_fail (req : Request) (hm : req.method = "GET")
    (hp : req.path = "/" ∨ req.path = "/health" ∨ req.path = "/api/version") :
    (handle req).status = 200 ∧ (handle req).status < 400 := by
  have hnp : isPreflight req = false :=
    isPreflight_eq_false_of_method req (by simp [hm])
  have hs := (handle_not_preflight req hnp).1
  have h200 : (handle req).status = 200 := by
    rw [hs]
    unfold routeAppWith
    rcases hp with h | h | h <;> simp [h, hm]
  exact ⟨h200, by rw [h200]; omega⟩

/-- Witness for C6 at the concrete health-check request. -/
theorem c6_handlers_never_fail_witness :
    (handle ⟨"GET", "/health", []⟩).status = 200 ∧
    (handle ⟨"GET", "/health", []⟩).status < 400 :=
  c6_handlers_never_fail ⟨"GET", "/health", []⟩ rfl (Or.inr (Or.inl rfl))

/-- C7: request handling is stateless and deterministic: the response to a
request appended after any history of prior requests is the value of the
per-request handler on that request alone, so two identical requests served
after different histories receive identical responses. -/
theorem c7_stateless_deterministic (h1 h2 : List Request) (r : Request) :
    (serve initState (h1 ++ [r])).2 = (serve initState h1).2 ++ [handle r] ∧
    (serve initState (h2 ++ [r])).2 = (serve initState h2).2 ++ [handle r] := by
  constructor <;> simp [serve_eq_map, handle]

/-- C8: the three static payloads are immutable: serving any sequence of
requests leaves the server state equal to the initial state, whose payloads
are exactly the literal mappings of the source. -/
theorem c8_payloads_immutable (reqs : List Request) :
    (serve initState reqs).1 = initState ∧
    initState.rootPayload = [("message", "Welcome to Budget Shop API")] ∧
    initState.healthPayload = [("status", "healthy"), ("service", "budget-shop-api")] ∧
    initState.versionPayload = [("version", "0.1.0"), ("framework", "FastAPI")] := by
  refine ⟨?_, rfl, rfl, rfl⟩
  rw [serve_eq_map]

/-- C9: a non-preflight request to a defined route with a method other than
GET is answered with 405, a status among the framework defaults 400, 404 and
405; and the failure is not fatal: a following request is served normally. -/
theorem c9_method_not_allowed (req : Request) (hm : req.method ≠ "GET")
    (hnp : isPreflight req = false)
    (hp : req.path = "/" ∨ req.path = "/health" ∨ req.path = "/api/version") :
    (handle req).status = 405 ∧
    (handle req).status ∈ [400, 404, 405] ∧
    ∀ r2, (serve initState [req, r2]).2 = [handle req, handle r2] := by
  have hs := (handle_not_preflight req hnp).1
  have h405 : (handle req).status = 405 := by
    rw [hs]
    unfold routeAppWith
    rcases hp with h | h | h <;> simp [h, hm]
  refine ⟨h405, by rw [h405]; simp, fun r2 => ?_⟩
  simp [serve_eq_map, handle]

/-- Witness for C9 at a concrete POST request to the health route. -/
theorem c9_method_not_allowed_witness :
    (handle ⟨"POST", "/health", []⟩).status = 405 ∧
    (serve initState [⟨"POST", "/health", []⟩, ⟨"GET", "/", []⟩]).2 =
      [handle ⟨"POST", "/health", []⟩, handle ⟨"GET", "/", []⟩] := by
  have h := c9_method_not_allowed ⟨"POST", "/health", []⟩ (by decide)
    (by decide) (Or.inr (Or.inl rfl))
  exact ⟨h.1, h.2.2 ⟨"GET", "/", []⟩⟩

/-- C10: the CORS middleware answers preflight requests before routing: an
OPTIONS request with an allow-listed origin and an
access-control-request-method header to a path that is not a defined route
is answered 200 with the origin echoed, not 404. -/
theorem c10_preflight_before_routing (req : Request) (origin : String)
    (hm : req.method = "OPTIONS")
    (ho : getHeader req.headers "origin" = some origin)
    (hallow : origin ∈ allow_origins)
    (hrm : (getHeader req.headers "access-control-request-method").isSome = true)
    (h1 : req.path ≠ "/") (h2 : req.path ≠ "/health")
    (h3 : req.path ≠ "/api/version") :
    (handle req).status = 200 ∧
    (handle req).status ≠ 404 ∧
    ("access-control-allow-origin", origin) ∈ (handle req).headers := by
  have hp : isPreflight req = true := by
    unfold isPreflight
    simp [hm, ho, hrm]
  unfold handle handleWith
  rw [ho]
  simp only [hp, if_true]
  unfold preflightResponse
  rw [if_pos hallow]
  refine ⟨rfl, by simp, ?_⟩
  apply List.mem_append_left
  simp

/-- Witness for C10 at a concrete preflight request to an undefined path. -/
theorem c10_preflight_before_routing_witness :
    (handle ⟨"OPTIONS", "/nonexistent",
      [("origin", "http://localhost:5173"),
       ("access-control-request-method", "GET")]⟩).status = 200 ∧
    ("access-control-allow-origin", "http://localhost:5173") ∈
      (handle ⟨"OPTIONS", "/nonexistent",
        [("origin", "http://localhost:5173"),
         ("access-control-request-method", "GET")]⟩).headers := by
  have h := c10_preflight_before_routing
    ⟨"OPTIONS", "/nonexistent",
      [("origin", "http://localhost:5173"),
       ("access-control-request-method", "GET")]⟩
    "http://localhost:5173" rfl rfl (by decide) rfl
    (by decide) (by decide) (by decide)
  exact ⟨h.1, h.2.2⟩

end BudgetShop
